import Mathlib

/-!
Verification of the YouTube Channel Globe Visualizer core against its
specification.

This file gives a shallow embedding, in Lean 4, of the parts of the
JavaScript source that the specification's testable properties talk about:

* `ResponsiveManager.updateBreakpoint` and `ResponsiveManager.getKeyframeTiming`
  (ResponsiveManager.js),
* the deterministic anti-z-fighting hash and the projection / morph vertex
  pipeline of `ImageProjector.projectImage` and
  `ImageProjector.updateGeometryForSize` (ImageProjector.js),
* `ImageProjector.setSizeMultiplier` / `reprojectAllImages`,
* `ImageProjector.generateSphericalDistribution`,
* the animation queue engine `AnimationManager`
  (`add`, `playNext`, `playSequence`, `update`, `stop`) together with the
  TWEEN.js tween semantics it relies on.

Modelling conventions:
* JavaScript numbers are modelled as exact rationals (`ℚ`); 32-bit integer
  operations (`<<`, `^`, `& 0xffffffff`) are modelled on `ℤ` with an explicit
  two's-complement reduction `toInt32`.
* Transcendental functions (`Math.sin`, `Math.cos`), the Euclidean vector
  length used by `Vector3.normalize`, and the numeric value of `Math.PI`
  are abstracted as parameters (`sinQ`, `cosQ`, `lenQ`, `piQ`): every theorem
  about the geometry pipeline holds for an arbitrary interpretation of these
  parameters, which in particular covers the IEEE implementations.
* Fallible JavaScript code (property access on `undefined`, unknown easing
  names) is modelled with `Except String`.
* Callbacks (`onComplete`) are modelled by opaque numeric identifiers; the
  engine returns the list of identifiers of callbacks it fired.
-/

/-! ## Breakpoint resolution (ResponsiveManager.js, `updateBreakpoint`)

`Object.entries(breakpoints)` is an association list in insertion order;
`.sort(([,a],[,b]) => b - a)` is a stable sort, descending by min-width.
We model it by a stable insertion sort. -/

/-- Insert one `(name, minWidth)` entry into a descending-sorted list,
keeping the sort stable (equal keys keep their original order), as the
ES2019 `Array.prototype.sort` does. -/
def insertDescBp (x : String × ℕ) : List (String × ℕ) → List (String × ℕ)
  | [] => [x]
  | y :: ys => if x.2 ≤ y.2 then y :: insertDescBp x ys else x :: y :: ys

/-- Stable sort of the breakpoint entries, descending by min-width
(`Object.entries(breakpoints).sort(([,a],[,b]) => b - a)`). -/
def sortBpsDesc : List (String × ℕ) → List (String × ℕ)
  | [] => []
  | x :: xs => insertDescBp x (sortBpsDesc xs)

/-- The resolver `ResponsiveManager.updateBreakpoint`: start from the default
`'mobile'`, walk the entries sorted largest-to-smallest, and take the first
whose min-width is ≤ the viewport width. -/
def updateBreakpoint (breakpoints : List (String × ℕ)) (width : ℕ) : String :=
  match (sortBpsDesc breakpoints).find? (fun e => width ≥ e.2) with
  | some e => e.1
  | none => "mobile"

/-- The repository's breakpoint table (`Config.responsive.breakpoints`,
config.js). -/
def configBreakpoints : List (String × ℕ) :=
  [("mobile", 0), ("tablet", 768), ("desktop", 1024), ("widescreen", 1440)]

/-! ## Keyframe timing table (ResponsiveManager.js, `getKeyframeTiming`) -/

/-- A named `(duration, delay, easing)` triple of the keyframe timing
table. -/
structure KTiming where
  duration : ℚ
  delay : ℚ
  easing : String
deriving Repr, DecidableEq

/-- The responsive part of the configuration object that
`ResponsiveManager` reads (`config.responsive`): the keyframe timing table
(`none` models a config without a `keyframeTiming` key) and the
breakpoint table. -/
structure RespCfg where
  keyframeTiming : Option (List (String × KTiming))
  breakpoints : List (String × ℕ)
deriving Repr, DecidableEq

/-- The lookup `ResponsiveManager.getKeyframeTiming`: `null` when the config has no
`keyframeTiming` table or when the name is absent from it, the timing
record otherwise. -/
def getKeyframeTiming (rm : RespCfg) (name : String) : Option KTiming :=
  match rm.keyframeTiming with
  | none => none
  | some table => (table.find? (fun e => e.1 = name)).map (·.2)

/-- The repository's keyframe timing table
(`Config.responsive.keyframeTiming`, config.js). -/
def configKeyframeTiming : List (String × KTiming) :=
  [("phase1", ⟨0, 0, "Linear.None"⟩),
   ("phase2", ⟨1800, 0, "Quadratic.InOut"⟩),
   ("phase3", ⟨1000, 1000, "Quadratic.InOut"⟩),
   ("phase4", ⟨1200, 0, "Quadratic.InOut"⟩),
   ("phase5", ⟨1000, 0, "Quadratic.InOut"⟩)]

/-- The repository's `config.responsive` as seen by `ResponsiveManager`. -/
def configResponsive : RespCfg :=
  { keyframeTiming := some configKeyframeTiming
    breakpoints := configBreakpoints }

/-! ## Anti-z-fighting hash (ImageProjector.js, lines 107-118 and 484-495)

JavaScript bitwise operators coerce their operands with `ToInt32`; we model
that two's-complement reduction explicitly on `ℤ`.  `x & 0xffffffff` is
`ToInt32 x` (the literal coerces to `-1`). -/

/-- JavaScript `ToInt32`: reduce an integer into the signed 32-bit range, as every
JavaScript bitwise operator does to its operands. -/
def toInt32 (n : ℤ) : ℤ := (n + 2 ^ 31) % 2 ^ 32 - 2 ^ 31

/-- The canonical unsigned 32-bit pattern of an integer (used to compute
bitwise XOR of two `ToInt32` values via `Nat.xor`). -/
def toUInt32Pat (n : ℤ) : ℕ := (n % 2 ^ 32).toNat

/-- JavaScript `a ^ b`: `ToInt32` both operands, XOR the 32-bit patterns,
read the result back as a signed 32-bit integer. -/
def jsXor (a b : ℤ) : ℤ :=
  toInt32 (Nat.xor (toUInt32Pat (toInt32 a)) (toUInt32Pat (toInt32 b)))

/-- One step of the image-URL character hash:
`imageHash = ((imageHash << 5) - imageHash + imageUrl.charCodeAt(j)) & 0xffffffff`.
`h` is already a 32-bit value from the previous step; `h << 5` is
`ToInt32 (h * 32)` and the trailing `& 0xffffffff` is a final `ToInt32`. -/
def imageHashStep (h : ℤ) (c : ℕ) : ℤ := toInt32 (toInt32 (h * 32) - h + c)

/-- The character-sum hash of the image URL (the `for (let j ...)` loop over
`imageUrl.charCodeAt(j)`); the URL is modelled as its list of char codes. -/
def imageHash (url : List ℕ) : ℤ := url.foldl imageHashStep 0

/-- The combined anti-z-fighting offset as computed inside
`ImageProjector.projectImage` (lines 107-118): integer-scaled latitude and
longitude (`Math.floor(position.lat * 100)`), the URL hash, the XOR-combined
hash, `Math.abs`, `% 1000 / 1000`, and the final `* 0.01`. -/
def zShiftProject (lat lng : ℚ) (url : List ℕ) : ℚ :=
  let latInt : ℤ := ⌊lat * 100⌋
  let lngInt : ℤ := ⌊lng * 100⌋
  let ih : ℤ := imageHash url
  let hash : ℤ := |jsXor (jsXor (latInt * 73856093) (lngInt * 19349663)) (ih * 83492791)|
  let normalizedHash : ℚ := ((hash % 1000 : ℤ) : ℚ) / 1000
  normalizedHash * (1 / 100)

/-- The same offset as recomputed inside
`ImageProjector.updateGeometryForSize` (lines 484-495); the code is a
verbatim copy of the block in `projectImage`, transcribed separately so
that the two call sites can be compared. -/
def zShiftUpdate (lat lng : ℚ) (url : List ℕ) : ℚ :=
  let latInt : ℤ := ⌊lat * 100⌋
  let lngInt : ℤ := ⌊lng * 100⌋
  let ih : ℤ := imageHash url
  let hash : ℤ := |jsXor (jsXor (latInt * 73856093) (lngInt * 19349663)) (ih * 83492791)|
  let normalizedHash : ℚ := ((hash % 1000 : ℤ) : ℚ) / 1000
  normalizedHash * (1 / 100)

/-! ## Projection and morph geometry (ImageProjector.js)

`Math.sin`, `Math.cos`, the vector length behind `Vector3.normalize`, and
the value of `Math.PI` are abstract parameters; all geometry theorems hold
for every interpretation of them. -/

/-- A 3-component vector of exact rationals (models `THREE.Vector3` and the
`{x, y, z}` bags the animation code passes around). -/
structure V3 where
  x : ℚ
  y : ℚ
  z : ℚ
deriving Repr, DecidableEq

/-- The abstract numeric environment: interpretations for `Math.sin`,
`Math.cos`, the Euclidean length `lenQ x y z` used by
`Vector3.normalize`, and the numeric value of `Math.PI`. -/
structure MathEnv where
  sinQ : ℚ → ℚ
  cosQ : ℚ → ℚ
  lenQ : ℚ → ℚ → ℚ → ℚ
  piQ : ℚ

/-- Shift a point outward along its own normal by `zShift`:
`normal = new THREE.Vector3(px,py,pz).normalize()` followed by
`.add(normal.multiplyScalar(zShift))`. -/
def applyZShift (env : MathEnv) (px py pz zShift : ℚ) : V3 :=
  let L := env.lenQ px py pz
  ⟨px + px / L * zShift, py + py / L * zShift, pz + pz / L * zShift⟩

/-- The per-vertex body of the curving loop in `projectImage`
(lines 83-125): alignment offset, local-to-angular mapping, Cartesian
conversion, and the anti-z-fighting shift. `x`/`y` are the flat local plane
coordinates of the vertex. -/
def projectVertex (env : MathEnv) (radius lat lng : ℚ) (alignX alignY : ℚ)
    (projWidth projHeight : ℚ) (url : List ℕ) (x y : ℚ) : V3 :=
  let phi := (90 - lat) * (env.piQ / 180)
  let theta := (lng + 180) * (env.piQ / 180)
  let alignmentOffsetX := -alignX * projWidth * 0.5
  let alignmentOffsetY := -alignY * projHeight * 0.5
  let alignedX := x + alignmentOffsetX
  let alignedY := y + alignmentOffsetY
  let sphericalPhi := phi + alignedY / radius
  let sphericalTheta := theta + alignedX / (radius * env.sinQ sphericalPhi)
  let px := radius * env.sinQ sphericalPhi * env.cosQ sphericalTheta
  let py := radius * env.cosQ sphericalPhi
  let pz := radius * env.sinQ sphericalPhi * env.sinQ sphericalTheta
  applyZShift env px py pz (zShiftProject lat lng url)

/-- The per-vertex body of the morph loop in `updateGeometryForSize`
(lines 462-502): identical pipeline, except that the stored original local
coordinate is first rescaled by `projWidth / originalWidth`
(resp. `projHeight / originalHeight`). -/
def morphVertex (env : MathEnv) (radius lat lng : ℚ) (alignX alignY : ℚ)
    (projWidth projHeight originalWidth originalHeight : ℚ) (url : List ℕ)
    (localX localY : ℚ) : V3 :=
  let phi := (90 - lat) * (env.piQ / 180)
  let theta := (lng + 180) * (env.piQ / 180)
  let alignmentOffsetX := -alignX * projWidth * 0.5
  let alignmentOffsetY := -alignY * projHeight * 0.5
  let alignedX := localX * (projWidth / originalWidth) + alignmentOffsetX
  let alignedY := localY * (projHeight / originalHeight) + alignmentOffsetY
  let sphericalPhi := phi + alignedY / radius
  let sphericalTheta := theta + alignedX / (radius * env.sinQ sphericalPhi)
  let px := radius * env.sinQ sphericalPhi * env.cosQ sphericalTheta
  let py := radius * env.cosQ sphericalPhi
  let pz := radius * env.sinQ sphericalPhi * env.sinQ sphericalTheta
  applyZShift env px py pz (zShiftUpdate lat lng url)

/-- The flat vertex grid of `THREE.PlaneGeometry(width, height, seg, seg)`
(the `(x, y)` pairs that `projectImage` reads back as `originalVertices`
before curving): row-major, `x` left to right, `y` top to bottom. -/
def planeGridVertices (width height : ℚ) (segments : ℕ) : List (ℚ × ℚ) :=
  ((List.range (segments + 1)).map (fun iy =>
    (List.range (segments + 1)).map (fun ix =>
      ((ix : ℚ) * (width / segments) - width / 2,
       -((iy : ℚ) * (height / segments) - height / 2))))).flatten

/-- The projection record `ImageProjector` keeps per image: the
`projectionData` entry together with the `mesh.userData` metadata and the
live vertex positions of the mesh. -/
structure ProjRecord where
  imageUrl : List ℕ
  originalTargetSize : ℚ
  lat : ℚ
  lng : ℚ
  alignX : ℚ
  alignY : ℚ
  aspect : ℚ
  originalVertices : List (ℚ × ℚ)
  originalWidth : ℚ
  originalHeight : ℚ
  positions : List V3

/-- The geometry-producing core of `ImageProjector.projectImage`
(lines 54-175), given the loaded image's aspect ratio and the multiplier in
effect at creation time: build the flat grid (`segments = 16`), remember it
as `originalVertices` together with `originalWidth`/`originalHeight`, and
curve every vertex onto the sphere. -/
def projectImageRecord (env : MathEnv) (radius : ℚ) (url : List ℕ)
    (targetSize : ℚ) (lat lng alignX alignY aspect multiplier : ℚ) : ProjRecord :=
  let effectiveTargetSize := targetSize * multiplier
  let projWidth := effectiveTargetSize * aspect
  let projHeight := effectiveTargetSize
  let segments : ℕ := 16
  let originalVertices := planeGridVertices projWidth projHeight segments
  { imageUrl := url
    originalTargetSize := targetSize
    lat := lat
    lng := lng
    alignX := alignX
    alignY := alignY
    aspect := aspect
    originalVertices := originalVertices
    originalWidth := projWidth
    originalHeight := projHeight
    positions := originalVertices.map (fun v =>
      projectVertex env radius lat lng alignX alignY projWidth projHeight url v.1 v.2) }

/-- The morph `ImageProjector.updateGeometryForSize` (lines 444-506): rewrite the
mesh's vertex positions in place from the stored original flat coordinates
under a new size multiplier; all metadata is left untouched. -/
def updateGeometryForSize (env : MathEnv) (radius : ℚ) (r : ProjRecord)
    (sizeMultiplier : ℚ) : ProjRecord :=
  let effectiveTargetSize := r.originalTargetSize * sizeMultiplier
  let projWidth := effectiveTargetSize * r.aspect
  let projHeight := effectiveTargetSize
  { r with positions := r.originalVertices.map (fun v =>
      morphVertex env radius r.lat r.lng r.alignX r.alignY
        projWidth projHeight r.originalWidth r.originalHeight r.imageUrl v.1 v.2) }

/-- The `ImageProjector` state that `setSizeMultiplier` acts on: the shared
multiplier cell and the tracked projection records. -/
structure ProjectorState where
  sizeMultiplier : ℚ
  projectionData : List ProjRecord

/-- The pass `ImageProjector.reprojectAllImages` (lines 511-527): morph every
tracked record under the current multiplier. -/
def reprojectAllImages (env : MathEnv) (radius : ℚ) (p : ProjectorState) : ProjectorState :=
  { p with projectionData :=
      p.projectionData.map (fun r => updateGeometryForSize env radius r p.sizeMultiplier) }

/-- The setter `ImageProjector.setSizeMultiplier` (lines 419-425): store the new value
and run the morph pass, but only when the value actually changed. -/
def setSizeMultiplier (env : MathEnv) (radius : ℚ) (p : ProjectorState)
    (multiplier : ℚ) : ProjectorState :=
  if p.sizeMultiplier ≠ multiplier then
    reprojectAllImages env radius { p with sizeMultiplier := multiplier }
  else p

/-- The getter `ImageProjector.getSizeMultiplier` (lines 431-433). -/
def getSizeMultiplier (p : ProjectorState) : ℚ := p.sizeMultiplier

/-! ## Animation queue engine (main.js, `AnimationManager` + TWEEN.js)

The engine mutates a shared world: the target mesh transform
(`scale`, `position`, `rotation`), the projector's size-multiplier cell and
the visualizer's `continuousRotation.speed` cell.  The embedding fixes
`imageProjector` and `globeVisualizer` as present, exactly as
`initiateGlobe` wires them. -/

/-- A per-axis partial `{x?, y?, z?}` bag inside a step's `target`
(`Object.assign` only overlays the keys that are present). -/
structure V3Delta where
  x : Option ℚ
  y : Option ℚ
  z : Option ℚ
deriving Repr, DecidableEq

/-- A step's `target` property bag: every sub-object may be absent. -/
structure TargetDelta where
  scale : Option V3Delta
  position : Option V3Delta
  rotation : Option V3Delta
  imageScale : Option ℚ
  rotationSpeed : Option ℚ
deriving Repr, DecidableEq

/-- An animation step as passed to `AnimationManager.add`:
`target` itself may be missing (a malformed step), `duration` missing means
the TWEEN default (1000 ms), `delay`/`easing` missing fall back through
`params.delay || 0` and `params.easing || 'Quadratic.InOut'`.  The
`onComplete` callback is an opaque identifier. -/
structure StepParams where
  target : Option TargetDelta
  duration : Option ℚ
  delay : Option ℚ
  easing : Option String
  useKeyframe : Option String
  onCompleteId : Option ℕ
deriving Repr, DecidableEq

/-- The shared mutable world the engine writes into: the target transform,
the projector's `sizeMultiplier` and the visualizer's
`continuousRotation.speed`. -/
structure World where
  scale : V3
  position : V3
  rotation : V3
  sizeMultiplier : ℚ
  rotationSpeed : ℚ
deriving Repr, DecidableEq

/-- The `currentState` / `targetState` objects of `playNext`: one snapshot
of every animatable property. -/
structure Snapshot where
  scale : V3
  position : V3
  rotation : V3
  imageScale : ℚ
  rotationSpeed : ℚ
deriving Repr, DecidableEq

/-- From `playNext` lines 401-407: snapshot the target's current scale, position
and rotation, the projector's multiplier and the visualizer's rotation
speed. -/
def snapshotOf (w : World) : Snapshot :=
  { scale := w.scale
    position := w.position
    rotation := w.rotation
    imageScale := w.sizeMultiplier
    rotationSpeed := w.rotationSpeed }

/-- JavaScript `Object.assign(dst, src)` on an `{x?, y?, z?}` bag: overlay only the
keys present in the delta. -/
def assignV3 (cur : V3) (d : V3Delta) : V3 :=
  { x := d.x.getD cur.x, y := d.y.getD cur.y, z := d.z.getD cur.z }

/-- From `playNext` lines 409-439: build `targetState` as a copy of
`currentState` overlaid with the keys present in `params.target`; rotation
is overlaid for the x and z axes only (y is intentionally excluded). -/
def buildTargetState (cur : Snapshot) (d : TargetDelta) : Snapshot :=
  let s1 := match d.scale with
    | some sd => { cur with scale := assignV3 cur.scale sd }
    | none => cur
  let s2 := match d.position with
    | some pd => { s1 with position := assignV3 s1.position pd }
    | none => s1
  let s3 := match d.rotation with
    | some rd =>
        { s2 with rotation :=
            { x := rd.x.getD s2.rotation.x
              y := s2.rotation.y
              z := rd.z.getD s2.rotation.z } }
    | none => s2
  let s4 := match d.imageScale with
    | some v => { s3 with imageScale := v }
    | none => s3
  match d.rotationSpeed with
  | some v => { s4 with rotationSpeed := v }
  | none => s4

/-- The table `AnimationManager.getEasingFunction` restricted to the easing names the
repository's configuration uses (`TWEEN.Easing[type][style]`); any other
name yields `none`, modelling the `undefined` lookup that makes TWEEN
throw. `Quadratic.InOut` is transcribed from TWEEN.js:
`if ((k *= 2) < 1) return 0.5 * k * k; return -0.5 * (--k * (k - 2) - 1)`. -/
def getEasingFunction (name : String) : Option (ℚ → ℚ) :=
  if name = "Linear.None" then some (fun k => k)
  else if name = "Quadratic.In" then some (fun k => k * k)
  else if name = "Quadratic.Out" then some (fun k => k * (2 - k))
  else if name = "Quadratic.InOut" then
    some (fun k => if 2 * k < 1 then 0.5 * (2 * k) * (2 * k)
                   else -0.5 * ((2 * k - 1) * (2 * k - 1 - 2) - 1))
  else none

/-- TWEEN.js property interpolation:
`object[property] = start + (end - start) * value`. -/
def interpQ (s e value : ℚ) : ℚ := s + (e - s) * value

/-- Interpolate a whole snapshot between the tween's start and end
snapshots at eased progress `value`. -/
def interpSnapshot (s e : Snapshot) (value : ℚ) : Snapshot :=
  { scale := ⟨interpQ s.scale.x e.scale.x value, interpQ s.scale.y e.scale.y value,
              interpQ s.scale.z e.scale.z value⟩
    position := ⟨interpQ s.position.x e.position.x value,
                 interpQ s.position.y e.position.y value,
                 interpQ s.position.z e.position.z value⟩
    rotation := ⟨interpQ s.rotation.x e.rotation.x value,
                 interpQ s.rotation.y e.rotation.y value,
                 interpQ s.rotation.z e.rotation.z value⟩
    imageScale := interpQ s.imageScale e.imageScale value
    rotationSpeed := interpQ s.rotationSpeed e.rotationSpeed value }

/-- The in-flight tween created by `playNext`: the start and end snapshots,
the timing parameters, the elapsed wall-clock time since `.start()`, the
resolved easing function, and the step's completion-callback identifier. -/
structure ActiveTween where
  startState : Snapshot
  endState : Snapshot
  duration : ℚ
  delay : ℚ
  elapsed : ℚ
  easingFn : ℚ → ℚ
  onCompleteId : Option ℕ

/-- The full `AnimationManager` state: the shared world, the FIFO queue,
the current tween, the two last-seen-value guards, and the responsive-mode
wiring. -/
structure MState where
  world : World
  queue : List StepParams
  current : Option ActiveTween
  lastImageScale : Option ℚ
  lastRotationSpeed : Option ℚ
  isResponsiveMode : Bool
  responsiveManager : Option RespCfg

/-- A fresh `AnimationManager` over world `w` (constructor, lines 344-354):
empty queue, no current animation, both last-seen guards `null`,
responsive mode off. -/
def initManager (w : World) (rm : Option RespCfg) : MState :=
  { world := w
    queue := []
    current := none
    lastImageScale := none
    lastRotationSpeed := none
    isResponsiveMode := false
    responsiveManager := rm }

/-- The `onUpdate` callback of the tween (lines 445-481): write scale and
position, write rotation x and z only, and propagate `imageScale` /
`rotationSpeed` to their side channels behind the last-seen-value guards
(`setSizeMultiplier` itself re-checks equality before morphing; for the
world cell both guards collapse to "write the value"). -/
def onUpdateWrite (w : World) (lastIS lastRS : Option ℚ) (cs : Snapshot) :
    World × Option ℚ × Option ℚ :=
  let w1 := { w with scale := cs.scale, position := cs.position,
                     rotation := { x := cs.rotation.x, y := w.rotation.y,
                                   z := cs.rotation.z } }
  let (w2, lastIS2) :=
    if lastIS ≠ some cs.imageScale then
      ({ w1 with sizeMultiplier :=
           if w1.sizeMultiplier ≠ cs.imageScale then cs.imageScale
           else w1.sizeMultiplier }, some cs.imageScale)
    else (w1, lastIS)
  let (w3, lastRS2) :=
    if lastRS ≠ some cs.rotationSpeed then
      ({ w2 with rotationSpeed := cs.rotationSpeed }, some cs.rotationSpeed)
    else (w2, lastRS)
  (w3, lastIS2, lastRS2)

/-- The scheduler core `AnimationManager.playNext` (lines 391-489): pop the queue head,
resolve the easing (`params.easing || 'Quadratic.InOut'`; an unknown name
is the TWEEN lookup `TypeError`), snapshot the current state, overlay the
step's `target` — reading `params.target.scale` on a step with no `target`
is a `TypeError` — and start the tween
(`.to(targetState, params.duration)` with the TWEEN default duration 1000,
`.delay(params.delay || 0)`). -/
def playNextM (s : MState) : Except String MState :=
  match s.queue with
  | [] => Except.ok { s with current := none }
  | params :: rest =>
    match getEasingFunction (params.easing.getD "Quadratic.InOut") with
    | none => Except.error "TypeError: TWEEN.Easing lookup is undefined"
    | some easingFn =>
      match params.target with
      | none => Except.error "TypeError: cannot read properties of undefined (reading scale)"
      | some delta =>
        let currentState := snapshotOf s.world
        let targetState := buildTargetState currentState delta
        Except.ok { s with
          queue := rest
          current := some
            { startState := currentState
              endState := targetState
              duration := params.duration.getD 1000
              delay := params.delay.getD 0
              elapsed := 0
              easingFn := easingFn
              onCompleteId := params.onCompleteId } }

/-- The keyframe-processing block at the head of `AnimationManager.add`
(lines 367-379): when the step names a keyframe, a responsive manager is
wired and responsive mode is on, override duration, easing and delay with
the table's values; otherwise keep the step as given. -/
def applyKeyframeTiming (s : MState) (params : StepParams) : StepParams :=
  match params.useKeyframe with
  | none => params
  | some kf =>
    match s.responsiveManager with
    | none => params
    | some rm =>
      if s.isResponsiveMode then
        match getKeyframeTiming rm kf with
        | some kt => { params with duration := some kt.duration,
                                   easing := some kt.easing,
                                   delay := some kt.delay }
        | none => params
      else params

/-- The operation `AnimationManager.add` (lines 366-386): process keyframe timing, push
onto the queue, and start playback immediately when nothing is playing. -/
def addM (params : StepParams) (s : MState) : Except String MState :=
  let processed := applyKeyframeTiming s params
  let s1 := { s with queue := s.queue ++ [processed] }
  match s1.current with
  | none => playNextM s1
  | some _ => Except.ok s1

/-- The operation `AnimationManager.update` (lines 528-530), i.e. one `TWEEN.update`
tick advanced by wall-clock delta `dt`: nothing to do when no tween is
active; before the delay has elapsed nothing is written; otherwise clamp
the progress to 1, ease it, interpolate, run `onUpdate`, and on completion
fire `onComplete` and advance the queue via `playNext`.  Returns the new
state and the identifiers of the completion callbacks that fired.
(A zero-duration tween completes on its first past-delay tick, matching
TWEEN's `Infinity`-clamped elapsed ratio.) -/
def updateM (dt : ℚ) (s : MState) : Except String (MState × List ℕ) :=
  match s.current with
  | none => Except.ok (s, [])
  | some tw =>
    let t := tw.elapsed + dt
    if t < tw.delay then
      Except.ok ({ s with current := some { tw with elapsed := t } }, [])
    else
      let frac := if tw.duration = 0 then 1 else min 1 ((t - tw.delay) / tw.duration)
      let value := tw.easingFn frac
      let cs := interpSnapshot tw.startState tw.endState value
      let (w2, lastIS2, lastRS2) := onUpdateWrite s.world s.lastImageScale s.lastRotationSpeed cs
      if frac = 1 then
        let s1 := { s with world := w2, lastImageScale := lastIS2,
                           lastRotationSpeed := lastRS2, current := none }
        match playNextM s1 with
        | Except.error e => Except.error e
        | Except.ok s2 => Except.ok (s2, tw.onCompleteId.toList)
      else
        Except.ok ({ s with world := w2, lastImageScale := lastIS2,
                            lastRotationSpeed := lastRS2,
                            current := some { tw with elapsed := t } }, [])

/-- The operation `AnimationManager.stop` (lines 535-541): cancel the in-flight tween
(TWEEN's `stop()` does not run `onComplete`) and discard every queued
step. -/
def stopM (s : MState) : MState := { s with current := none, queue := [] }

/-- Run a sequence of `update` ticks, collecting every completion callback
that fires along the way. -/
def runUpdates (dts : List ℚ) (s : MState) : Except String (MState × List ℕ) :=
  match dts with
  | [] => Except.ok (s, [])
  | dt :: rest =>
    match updateM dt s with
    | Except.error e => Except.error e
    | Except.ok (s1, evs) =>
      match runUpdates rest s1 with
      | Except.error e => Except.error e
      | Except.ok (s2, evs2) => Except.ok (s2, evs ++ evs2)

/-! ## Spherical distribution (ImageProjector.js, `generateSphericalDistribution`)

`Math.cos` / `Math.sin` / `Math.PI` come from the abstract `MathEnv`.
Arithmetic on image counts is exact natural arithmetic
(`Math.ceil(a / b)` on positive integers is `(a + b - 1) / b`). -/

/-- The value `Math.ceil(Math.sqrt(n))` for a natural number `n`. -/
def ceilSqrt (n : ℕ) : ℕ :=
  if Nat.sqrt n * Nat.sqrt n = n then Nat.sqrt n else Nat.sqrt n + 1

/-- The alternating equator-outward band order (lines 297-304):
`floor(n/2) + floor((i+1)/2)` for even `i`, `floor(n/2) - floor((i+1)/2)`
for odd `i`. -/
def parallelOrder (n i : ℕ) : ℕ :=
  if i % 2 = 0 then n / 2 + (i + 1) / 2 else n / 2 - (i + 1) / 2

/-- A band's capacity (`Math.max(MIN_IMAGES_PER_PARALLEL,
Math.floor(base * circumferenceRatio))` with `MIN_IMAGES_PER_PARALLEL = 2`). -/
def bandCapacity (base : ℚ) (circumFactor : ℚ) : ℕ :=
  (max 2 ⌊base * circumFactor⌋).toNat

/-- First distribution pass (lines 313-334): walk `currentParallel`
through `0, …, n-1` while images remain, giving each visited band
`min(capacity₁₅, ceil(remaining / remainingParallels))` images.
`ipp` is the `imagesPerParallel` array (absent entries read as 0). -/
def firstPass (env : MathEnv) (spacing : ℚ) (n : ℕ) :
    List ℕ → ℕ → (ℕ → ℕ) → (ℕ → ℕ) × ℕ
  | [], rem, ipp => (ipp, rem)
  | cp :: rest, rem, ipp =>
    if rem = 0 then (ipp, rem)
    else
      let parallel := parallelOrder n (cp % n)
      let latitude : ℚ := -90 + spacing * ((parallel : ℚ) + 1)
      let circumFactor := env.cosQ (latitude * (env.piQ / 180))
      let maxImages := bandCapacity 15 circumFactor
      let remainingParallels := n - cp
      let forThis := min maxImages ((rem + remainingParallels - 1) / remainingParallels)
      firstPass env spacing n rest (rem - forThis)
        (fun j => if j = parallel then forThis else ipp j)

/-- The top-up pass (lines 338-364): when images are left over, revisit the
bands in the same alternating order and add up to
`capacity₁₂ - current` images each (`BASE_PARALLEL_MULTIPLIER = 12`). -/
def secondPass (env : MathEnv) (spacing : ℚ) (n : ℕ) :
    List ℕ → ℕ → (ℕ → ℕ) → (ℕ → ℕ) × ℕ
  | [], rem, ipp => (ipp, rem)
  | i :: rest, rem, ipp =>
    if rem = 0 then (ipp, rem)
    else
      let parallel := parallelOrder n i
      let latitude : ℚ := -90 + spacing * ((parallel : ℚ) + 1)
      let circumFactor := env.cosQ (latitude * (env.piQ / 180))
      let maxImages := bandCapacity 12 circumFactor
      let current := ipp parallel
      let additional := min rem (maxImages - current)
      if 0 < additional then
        secondPass env spacing n rest (rem - additional)
          (fun j => if j = parallel then current + additional else ipp j)
      else secondPass env spacing n rest rem ipp

/-- Both passes chained: the final `imagesPerParallel` array and the number
of images that could not be placed. -/
def distributionCounts (env : MathEnv) (numImages : ℕ) : (ℕ → ℕ) × ℕ :=
  let numParallels := min (ceilSqrt numImages) 7
  let spacing : ℚ := 180 / ((numParallels : ℚ) + 1)
  let (ipp1, rem1) :=
    firstPass env spacing numParallels (List.range numParallels) numImages (fun _ => 0)
  if 0 < rem1 then secondPass env spacing numParallels (List.range numParallels) rem1 ipp1
  else (ipp1, rem1)

/-- One placement config produced by `generateSphericalDistribution`
(lines 385-396); the image URL is kept at an abstract type. -/
structure ImageConfig (α : Type) where
  imageUrl : α
  targetSize : ℚ
  lat : ℚ
  lng : ℚ
  alignX : ℚ
  alignY : ℚ
  rotX : ℚ
  rotY : ℚ
  rotZ : ℚ
deriving Repr, DecidableEq

/-- The inner placement loop (lines 382-399):
`for (i = 0; i < numImages && imageIndex < urls.length; i++)`, longitude
`i * angleStep`, alignment `(0,0)`, rotation `(0, 0, Math.PI)`. -/
def placeInner {α : Type} (piQ : ℚ) (size lat angleStep : ℚ) (urls : List α) :
    List ℕ → ℕ → List (ImageConfig α) → ℕ × List (ImageConfig α)
  | [], idx, acc => (idx, acc)
  | i :: rest, idx, acc =>
    match urls.get? idx with
    | none => (idx, acc)
    | some u =>
      placeInner piQ size lat angleStep urls rest (idx + 1)
        (acc ++ [{ imageUrl := u, targetSize := size, lat := lat,
                   lng := (i : ℚ) * angleStep, alignX := 0, alignY := 0,
                   rotX := 0, rotY := 0, rotZ := piQ }])

/-- The outer placement loop over bands `p = 0, …, n-1` (lines 367-400):
deterministic latitude and angle-step jitter from `sin(p * 13.37)` and
`cos(p * 7.853)`, skipping empty bands. -/
def placeOuter {α : Type} (env : MathEnv) (spacing size : ℚ) (urls : List α)
    (ipp : ℕ → ℕ) :
    List ℕ → ℕ → List (ImageConfig α) → ℕ × List (ImageConfig α)
  | [], idx, acc => (idx, acc)
  | p :: rest, idx, acc =>
    let numImages := ipp p
    if numImages = 0 then placeOuter env spacing size urls ipp rest idx acc
    else
      let baseLatitude : ℚ := -90 + spacing * ((p : ℚ) + 1)
      let latitudeJitter := env.sinQ ((p : ℚ) * 13.37) * spacing * 0.8
      let latitude := baseLatitude + latitudeJitter
      let baseAngleStep : ℚ := 360 / (numImages : ℚ)
      let angleJitter := env.cosQ ((p : ℚ) * 7.853) * baseAngleStep * 0.05
      let angleStep := baseAngleStep + angleJitter
      let (idx2, acc2) :=
        placeInner env.piQ size latitude angleStep urls (List.range numImages) idx acc
      placeOuter env spacing size urls ipp rest idx2 acc2

/-- The planner `ImageProjector.generateSphericalDistribution` (lines 281-403):
distribute the URLs over latitude bands and produce one placement config
per placed image.  `optTargetSize` models `options.targetSize`
(`options.targetSize || Math.PI / 4`). -/
def generateSphericalDistribution {α : Type} (env : MathEnv) (urls : List α)
    (optTargetSize : Option ℚ) : List (ImageConfig α) :=
  let defaultSize := optTargetSize.getD (env.piQ / 4)
  let numParallels := min (ceilSqrt urls.length) 7
  let spacing : ℚ := 180 / ((numParallels : ℚ) + 1)
  let ipp := (distributionCounts env urls.length).1
  (placeOuter env spacing defaultSize urls ipp (List.range numParallels) 0 []).2

/-! ## Theorems -/

/-- The concrete result of sorting the repository's breakpoint table
descending by min-width. -/
lemma sortBpsDesc_config :
    sortBpsDesc configBreakpoints =
      [("widescreen", 1440), ("desktop", 1024), ("tablet", 768), ("mobile", 0)] := rfl

/-- C4: for every viewport width, `updateBreakpoint` on the repository's
breakpoint table selects the entry with the highest min-width that is ≤ the
width (the `'mobile'` fallback for a width below every entry is unreachable
here, since the lowest entry `("mobile", 0)` qualifies for every width);
and the widths 0, 767, 768, 1023, 1440, 5000 resolve to mobile, mobile,
tablet, tablet, widescreen, widescreen. -/
theorem breakpoint_resolution :
    (∀ width : ℕ, ∃ m : ℕ,
        (updateBreakpoint configBreakpoints width, m) ∈ configBreakpoints ∧
        m ≤ width ∧
        ∀ p ∈ configBreakpoints, p.2 ≤ width → p.2 ≤ m) ∧
    [0, 767, 768, 1023, 1440, 5000].map (updateBreakpoint configBreakpoints) =
      ["mobile", "mobile", "tablet", "tablet", "widescreen", "widescreen"] := by
  constructor
  · intro w
    by_cases h1 : 1440 ≤ w
    · refine ⟨1440, ?_, h1, ?_⟩
      · simp [updateBreakpoint, sortBpsDesc_config, List.find?, h1, configBreakpoints]
      · intro p hp _; fin_cases hp <;> norm_num
    · by_cases h2 : 1024 ≤ w
      · refine ⟨1024, ?_, h2, ?_⟩
        · simp [updateBreakpoint, sortBpsDesc_config, List.find?, h1, h2, configBreakpoints]
        · intro p hp hpw; fin_cases hp <;> simp_all
      · by_cases h3 : 768 ≤ w
        · refine ⟨768, ?_, h3, ?_⟩
          · simp [updateBreakpoint, sortBpsDesc_config, List.find?, h1, h2, h3,
              configBreakpoints]
          · intro p hp hpw; fin_cases hp <;> simp_all
        · refine ⟨0, ?_, Nat.zero_le w, ?_⟩
          · simp [updateBreakpoint, sortBpsDesc_config, List.find?, h1, h2, h3,
              configBreakpoints]
          · intro p hp hpw; fin_cases hp <;> simp_all
  · rfl

/-- C4 witness: the general selection property applied at width 767. -/
theorem breakpoint_resolution_witness :
    ∃ m : ℕ, (updateBreakpoint configBreakpoints 767, m) ∈ configBreakpoints ∧
      m ≤ 767 ∧ ∀ p ∈ configBreakpoints, p.2 ≤ 767 → p.2 ≤ m :=
  breakpoint_resolution.1 767

/-- C5: the anti-z-fighting offset is a pure function of
(lat, lng, imageUrl): the copies of the hash in `projectImage` and in
`updateGeometryForSize` agree on every input, the offset always lies in
[0, 0.01], and equal inputs always yield equal offsets. -/
theorem zshift_pure_deterministic_bounded :
    (∀ (lat lng : ℚ) (url : List ℕ),
        zShiftProject lat lng url = zShiftUpdate lat lng url) ∧
    (∀ (lat lng : ℚ) (url : List ℕ),
        0 ≤ zShiftProject lat lng url ∧ zShiftProject lat lng url ≤ 1 / 100) ∧
    (∀ (lat₁ lng₁ lat₂ lng₂ : ℚ) (url₁ url₂ : List ℕ),
        lat₁ = lat₂ → lng₁ = lng₂ → url₁ = url₂ →
        zShiftProject lat₁ lng₁ url₁ = zShiftProject lat₂ lng₂ url₂) := by
  have key : ∀ z : ℤ,
      0 ≤ ((z % 1000 : ℤ) : ℚ) / 1000 * (1 / 100) ∧
      ((z % 1000 : ℤ) : ℚ) / 1000 * (1 / 100) ≤ 1 / 100 := by
    intro z
    have h0 : (0 : ℤ) ≤ z % 1000 := Int.emod_nonneg _ (by norm_num)
    have h1 : z % 1000 < 1000 := Int.emod_lt_of_pos _ (by norm_num)
    have hq0 : (0 : ℚ) ≤ ((z % 1000 : ℤ) : ℚ) := by exact_mod_cast h0
    have hq1 : ((z % 1000 : ℤ) : ℚ) ≤ 999 := by exact_mod_cast (by omega : z % 1000 ≤ 999)
    constructor
    · exact mul_nonneg (div_nonneg hq0 (by norm_num)) (by norm_num)
    · linarith
  refine ⟨fun _ _ _ => rfl, ?_, ?_⟩
  · intro lat lng url
    exact key _
  · intro lat₁ lng₁ lat₂ lng₂ url₁ url₂ e1 e2 e3
    subst e1; subst e2; subst e3; rfl

/-- C5 witness: the two hash copies agree and the bound holds at a concrete
input (lat 10.5, lng -20.25, URL char codes [104, 113]). -/
theorem zshift_pure_witness :
    zShiftProject (21 / 2) (-81 / 4) [104, 113] = zShiftUpdate (21 / 2) (-81 / 4) [104, 113] ∧
    0 ≤ zShiftProject (21 / 2) (-81 / 4) [104, 113] ∧
    zShiftProject (21 / 2) (-81 / 4) [104, 113] ≤ 1 / 100 :=
  ⟨zshift_pure_deterministic_bounded.1 (21 / 2) (-81 / 4) [104, 113],
   (zshift_pure_deterministic_bounded.2.1 (21 / 2) (-81 / 4) [104, 113]).1,
   (zshift_pure_deterministic_bounded.2.1 (21 / 2) (-81 / 4) [104, 113]).2⟩

/-- C10: setting the size multiplier to the value `getSizeMultiplier`
already reports is a complete no-op — the stored multiplier and every
tracked record (vertex positions included) are unchanged, because
`reprojectAllImages` is only invoked when the value differs. -/
theorem setSizeMultiplier_redundant_noop (env : MathEnv) (radius : ℚ)
    (p : ProjectorState) (m : ℚ) (h : getSizeMultiplier p = m) :
    setSizeMultiplier env radius p m = p := by
  unfold getSizeMultiplier at h
  unfold setSizeMultiplier
  simp [h]

/-- A concrete math environment used by witnesses (any interpretation of
sin / cos / length / π is admissible). -/
def envW : MathEnv :=
  { sinQ := fun _ => 0, cosQ := fun _ => 1, lenQ := fun _ _ _ => 1, piQ := 3 }

/-- C10 witness: a projector holding one record at multiplier 1 is left
untouched by `setSizeMultiplier 1`. -/
theorem setSizeMultiplier_redundant_noop_witness :
    getSizeMultiplier
        ⟨1, [⟨[104], 1, 0, 0, 0, 0, 1, [(0, 0)], 1, 1, [⟨1, 0, 0⟩]⟩]⟩ = 1 ∧
    setSizeMultiplier envW 2
        ⟨1, [⟨[104], 1, 0, 0, 0, 0, 1, [(0, 0)], 1, 1, [⟨1, 0, 0⟩]⟩]⟩ 1 =
      ⟨1, [⟨[104], 1, 0, 0, 0, 0, 1, [(0, 0)], 1, 1, [⟨1, 0, 0⟩]⟩]⟩ :=
  ⟨rfl, setSizeMultiplier_redundant_noop envW 2
    ⟨1, [⟨[104], 1, 0, 0, 0, 0, 1, [(0, 0)], 1, 1, [⟨1, 0, 0⟩]⟩]⟩ 1 rfl⟩

/-! ### Animation-engine lemmas -/

/-- The spec-side overlay ("a target-end snapshot is built by overlaying
only the keys present in the step's targetDelta onto the current snapshot;
keys absent in the delta retain their current value"), written directly
from the spec's words for comparison with the engine's behaviour.  The
spec's key set is scale/position x,y,z, rotation x,z (y excluded),
imageScale and rotationSpeed. -/
def specOverlayWorld (w : World) (d : TargetDelta) : World :=
  { scale := ⟨(d.scale.bind V3Delta.x).getD w.scale.x,
              (d.scale.bind V3Delta.y).getD w.scale.y,
              (d.scale.bind V3Delta.z).getD w.scale.z⟩
    position := ⟨(d.position.bind V3Delta.x).getD w.position.x,
                 (d.position.bind V3Delta.y).getD w.position.y,
                 (d.position.bind V3Delta.z).getD w.position.z⟩
    rotation := ⟨(d.rotation.bind V3Delta.x).getD w.rotation.x,
                 w.rotation.y,
                 (d.rotation.bind V3Delta.z).getD w.rotation.z⟩
    sizeMultiplier := d.imageScale.getD w.sizeMultiplier
    rotationSpeed := d.rotationSpeed.getD w.rotationSpeed }

/-- Every easing function the repository's configs can resolve maps
progress 1 to exactly 1, so a completed tween lands exactly on its end
snapshot. -/
lemma getEasingFunction_at_one {name : String} {e : ℚ → ℚ}
    (h : getEasingFunction name = some e) : e 1 = 1 := by
  unfold getEasingFunction at h
  split_ifs at h
  · cases h; norm_num
  · cases h; norm_num
  · cases h; norm_num
  · cases h; norm_num

/-- At eased progress 1 the interpolated snapshot is exactly the end
snapshot. -/
lemma interpSnapshot_one (s e : Snapshot) : interpSnapshot s e 1 = e := by
  rcases e with ⟨⟨x1, x2, x3⟩, ⟨y1, y2, y3⟩, ⟨z1, z2, z3⟩, w1, w2⟩
  simp only [interpSnapshot, interpQ]
  norm_num

/-- Field-level description of `buildTargetState`: present delta keys
overwrite, absent keys keep the snapshot's value, and rotation y is never
taken from the delta. -/
lemma buildTargetState_fields (cur : Snapshot) (d : TargetDelta) :
    (buildTargetState cur d).scale =
      ⟨(d.scale.bind V3Delta.x).getD cur.scale.x,
       (d.scale.bind V3Delta.y).getD cur.scale.y,
       (d.scale.bind V3Delta.z).getD cur.scale.z⟩ ∧
    (buildTargetState cur d).position =
      ⟨(d.position.bind V3Delta.x).getD cur.position.x,
       (d.position.bind V3Delta.y).getD cur.position.y,
       (d.position.bind V3Delta.z).getD cur.position.z⟩ ∧
    (buildTargetState cur d).rotation =
      ⟨(d.rotation.bind V3Delta.x).getD cur.rotation.x,
       cur.rotation.y,
       (d.rotation.bind V3Delta.z).getD cur.rotation.z⟩ ∧
    (buildTargetState cur d).imageScale = d.imageScale.getD cur.imageScale ∧
    (buildTargetState cur d).rotationSpeed = d.rotationSpeed.getD cur.rotationSpeed := by
  rcases d with ⟨sc, po, ro, im, rs⟩
  cases sc <;> cases po <;> cases ro <;> cases im <;> cases rs <;>
    simp [buildTargetState, assignV3]

/-- Evaluating `onUpdateWrite` with both last-seen guards still `null` (their state at
the first tick of a fresh manager): all writes go through, and the size
multiplier's internal equality re-check lands on the same value either
way. -/
lemma onUpdateWrite_none (w : World) (cs : Snapshot) :
    onUpdateWrite w none none cs =
      ({ scale := cs.scale, position := cs.position,
         rotation := ⟨cs.rotation.x, w.rotation.y, cs.rotation.z⟩,
         sizeMultiplier := cs.imageScale, rotationSpeed := cs.rotationSpeed },
       some cs.imageScale, some cs.rotationSpeed) := by
  rcases w with ⟨ws, wp, wr, wm, wrs⟩
  by_cases h : wm = cs.imageScale <;> simp [onUpdateWrite, h]

/-- Calling `add` on a fresh manager immediately starts playback of the step:
the queue stays empty and the current tween carries the snapshot, the
overlaid end state and the step's timing. -/
lemma addM_fresh (w : World) (rm : Option RespCfg) (delta : TargetDelta)
    (dur dly : ℚ) (ename : String) (ocid : Option ℕ) (e : ℚ → ℚ)
    (hE : getEasingFunction ename = some e) :
    addM ⟨some delta, some dur, some dly, some ename, none, ocid⟩ (initManager w rm) =
      Except.ok { initManager w rm with
        current := some
          { startState := snapshotOf w
            endState := buildTargetState (snapshotOf w) delta
            duration := dur
            delay := dly
            elapsed := 0
            easingFn := e
            onCompleteId := ocid } } := by
  simp [addM, applyKeyframeTiming, playNextM, initManager, hE]

/-- Playing one fresh explicitly-timed step to completion: `add` starts the
tween at once, and a single `update` past `delay + duration` finishes it,
fires exactly its completion callback, and leaves the world at the
spec-side overlay of the start world with the step's delta. -/
lemma play_fresh_step (w : World) (rm : Option RespCfg) (delta : TargetDelta)
    (dur dly : ℚ) (ename : String) (ocid : Option ℕ) (e : ℚ → ℚ) (dt : ℚ)
    (hE : getEasingFunction ename = some e) (hdur : 0 ≤ dur) (hdly : 0 ≤ dly)
    (hdt : dly + dur ≤ dt) :
    ∃ s1 s2 : MState,
      addM ⟨some delta, some dur, some dly, some ename, none, ocid⟩ (initManager w rm) =
        Except.ok s1 ∧
      updateM dt s1 = Except.ok (s2, ocid.toList) ∧
      s2.world = specOverlayWorld w delta := by
  have hone : e 1 = 1 := getEasingFunction_at_one hE
  have hne : ¬ ((0 : ℚ) + dt < dly) := by
    simp only [not_lt, zero_add]; linarith
  have hfrac : (if dur = 0 then (1 : ℚ) else min 1 ((0 + dt - dly) / dur)) = 1 := by
    by_cases h : dur = 0
    · simp [h]
    · have hpos : 0 < dur := lt_of_le_of_ne hdur (Ne.symm h)
      rw [if_neg h]
      refine min_eq_left ?_
      rw [le_div_iff₀ hpos]
      linarith
  set ts := buildTargetState (snapshotOf w) delta with hts
  refine ⟨⟨w, [], some ⟨snapshotOf w, ts, dur, dly, 0, e, ocid⟩, none, none, false, rm⟩,
          ⟨⟨ts.scale, ts.position, ⟨ts.rotation.x, w.rotation.y, ts.rotation.z⟩,
            ts.imageScale, ts.rotationSpeed⟩,
           [], none, some ts.imageScale, some ts.rotationSpeed, false, rm⟩,
          addM_fresh w rm delta dur dly ename ocid e hE, ?_, ?_⟩
  · simp only [updateM]
    rw [if_neg hne, hfrac, hone, interpSnapshot_one, onUpdateWrite_none]
    simp [playNextM]
  · obtain ⟨hsc, hpo, hro, him, hrs⟩ := buildTargetState_fields (snapshotOf w) delta
    rw [← hts] at hsc hpo hro him hrs
    simp only [specOverlayWorld, snapshotOf] at hsc hpo hro him hrs ⊢
    rw [hsc, hpo, hro, him, hrs]

/-- The scheduler `playNext` never writes the world: it only moves a step from the queue
into the current-tween slot. -/
lemma playNextM_world {s s2 : MState} (h : playNextM s = Except.ok s2) :
    s2.world = s.world := by
  unfold playNextM at h
  split at h
  · cases h; rfl
  · split at h
    · cases h
    · split at h
      · cases h
      · cases h; rfl

/-- The operation `add` never writes the world either. -/
lemma addM_world {p : StepParams} {s s2 : MState} (h : addM p s = Except.ok s2) :
    s2.world.rotation.y = s.world.rotation.y := by
  simp only [addM] at h
  split at h
  · rw [playNextM_world h]
  · cases h; rfl

/-- The world written by `onUpdate` keeps the target's rotation y. -/
lemma onUpdateWrite_rotY (w : World) (a b : Option ℚ) (cs : Snapshot) :
    (onUpdateWrite w a b cs).1.rotation.y = w.rotation.y := by
  unfold onUpdateWrite
  split_ifs <;> rfl

/-- Equation form of `onUpdateWrite_rotY`, for use after `split`. -/
lemma onUpdateWrite_rotY_eq {w : World} {a b : Option ℚ} {cs : Snapshot}
    {w2 : World} {li lr : Option ℚ}
    (h : onUpdateWrite w a b cs = (w2, li, lr)) :
    w2.rotation.y = w.rotation.y := by
  have h1 := onUpdateWrite_rotY w a b cs
  rw [h] at h1
  exact h1

/-- One `update` tick never changes the target's rotation y. -/
lemma updateM_rotY {dt : ℚ} {s s2 : MState} {evs : List ℕ}
    (h : updateM dt s = Except.ok (s2, evs)) :
    s2.world.rotation.y = s.world.rotation.y := by
  simp only [updateM] at h
  split at h
  · cases h; rfl
  · split at h
    · cases h; rfl
    · split at h
      · split at h
        · split at h
          · cases h
          · rename_i s3 hpn
            cases h
            rw [playNextM_world hpn]
            exact onUpdateWrite_rotY _ _ _ _
        · cases h
          exact onUpdateWrite_rotY _ _ _ _
      · split at h
        · split at h
          · cases h
          · rename_i s3 hpn
            cases h
            rw [playNextM_world hpn]
            exact onUpdateWrite_rotY _ _ _ _
        · cases h
          exact onUpdateWrite_rotY _ _ _ _

/-- C1: playing a step whose targetDelta sets only a subset of the
property keys to completion leaves every property not named in the delta
exactly at its value when the step began; the final world is the start
world overlaid with only the delta's keys (`specOverlayWorld`). -/
theorem partial_update_invariant (w : World) (rm : Option RespCfg)
    (delta : TargetDelta) (dur dly : ℚ) (ename : String) (ocid : Option ℕ)
    (e : ℚ → ℚ) (dt : ℚ)
    (hE : getEasingFunction ename = some e) (hdur : 0 ≤ dur) (hdly : 0 ≤ dly)
    (hdt : dly + dur ≤ dt) :
    ∃ s1 s2 : MState,
      addM ⟨some delta, some dur, some dly, some ename, none, ocid⟩ (initManager w rm) =
        Except.ok s1 ∧
      updateM dt s1 = Except.ok (s2, ocid.toList) ∧
      s2.world = specOverlayWorld w delta ∧
      (delta.scale = none → s2.world.scale = w.scale) ∧
      (delta.position = none → s2.world.position = w.position) ∧
      (delta.rotation = none → s2.world.rotation = w.rotation) ∧
      (delta.imageScale = none → s2.world.sizeMultiplier = w.sizeMultiplier) ∧
      (delta.rotationSpeed = none → s2.world.rotationSpeed = w.rotationSpeed) := by
  obtain ⟨s1, s2, h1, h2, h3⟩ :=
    play_fresh_step w rm delta dur dly ename ocid e dt hE hdur hdly hdt
  refine ⟨s1, s2, h1, h2, h3, ?_, ?_, ?_, ?_, ?_⟩ <;>
    intro hnone <;> rw [h3] <;> simp [specOverlayWorld, hnone]

/-- C1 witness: a step setting only `scale.x := 5` over a concrete start
world, with `Linear.None` easing, duration 100 and no delay, completed by
a single 100 ms update. -/
theorem partial_update_invariant_witness :
    ∃ s1 s2 : MState,
      addM ⟨some ⟨some ⟨some 5, none, none⟩, none, none, none, none⟩,
            some 100, some 0, some "Linear.None", none, none⟩
          (initManager ⟨⟨1, 1, 1⟩, ⟨0, 0, 0⟩, ⟨2, 3, 4⟩, 1, 3 / 10000⟩ none) =
        Except.ok s1 ∧
      updateM 100 s1 = Except.ok (s2, (none : Option ℕ).toList) ∧
      s2.world = specOverlayWorld ⟨⟨1, 1, 1⟩, ⟨0, 0, 0⟩, ⟨2, 3, 4⟩, 1, 3 / 10000⟩
          ⟨some ⟨some 5, none, none⟩, none, none, none, none⟩ ∧
      ((⟨some ⟨some 5, none, none⟩, none, none, none, none⟩ : TargetDelta).scale = none →
        s2.world.scale = ⟨1, 1, 1⟩) ∧
      ((⟨some ⟨some 5, none, none⟩, none, none, none, none⟩ : TargetDelta).position = none →
        s2.world.position = ⟨0, 0, 0⟩) ∧
      ((⟨some ⟨some 5, none, none⟩, none, none, none, none⟩ : TargetDelta).rotation = none →
        s2.world.rotation = ⟨2, 3, 4⟩) ∧
      ((⟨some ⟨some 5, none, none⟩, none, none, none, none⟩ : TargetDelta).imageScale = none →
        s2.world.sizeMultiplier = 1) ∧
      ((⟨some ⟨some 5, none, none⟩, none, none, none, none⟩ : TargetDelta).rotationSpeed = none →
        s2.world.rotationSpeed = 3 / 10000) :=
  partial_update_invariant ⟨⟨1, 1, 1⟩, ⟨0, 0, 0⟩, ⟨2, 3, 4⟩, 1, 3 / 10000⟩ none
    ⟨some ⟨some 5, none, none⟩, none, none, none, none⟩ 100 0 "Linear.None" none
    (fun k => k) 100 rfl (by norm_num) (by norm_num) (by norm_num)

/-- C6: step-driven interpolation never writes the target's rotation y:
every successful `update` tick, every `playNext` and every `add` leave
`rotation.y` unchanged, and the end snapshot built from a step's delta
keeps the current rotation y even when the delta carries a `rotation.y`
value. -/
theorem rotation_y_excluded :
    (∀ (dt : ℚ) (s s2 : MState) (evs : List ℕ),
        updateM dt s = Except.ok (s2, evs) →
        s2.world.rotation.y = s.world.rotation.y) ∧
    (∀ s s2 : MState, playNextM s = Except.ok s2 → s2.world = s.world) ∧
    (∀ (p : StepParams) (s s2 : MState), addM p s = Except.ok s2 →
        s2.world.rotation.y = s.world.rotation.y) ∧
    (∀ (cur : Snapshot) (d : TargetDelta),
        (buildTargetState cur d).rotation.y = cur.rotation.y) := by
  refine ⟨fun _ _ _ _ h => updateM_rotY h, fun _ _ h => playNextM_world h,
          fun _ _ _ h => addM_world h, fun cur d => ?_⟩
  rw [(buildTargetState_fields cur d).2.2.1]

/-- C6 witness: an idle manager's `update` tick, applied through the
theorem, keeps rotation y; the end-snapshot clause applied to a delta that
does carry `rotation.y := 9`. -/
theorem rotation_y_excluded_witness :
    ((initManager ⟨⟨1, 1, 1⟩, ⟨0, 0, 0⟩, ⟨2, 3, 4⟩, 1, 0⟩ none).world.rotation.y =
        (initManager ⟨⟨1, 1, 1⟩, ⟨0, 0, 0⟩, ⟨2, 3, 4⟩, 1, 0⟩ none).world.rotation.y) ∧
    (buildTargetState
        (snapshotOf ⟨⟨1, 1, 1⟩, ⟨0, 0, 0⟩, ⟨2, 3, 4⟩, 1, 0⟩)
        ⟨none, none, some ⟨some 7, some 9, some 8⟩, none, none⟩).rotation.y = 3 :=
  ⟨rotation_y_excluded.1 1 (initManager ⟨⟨1, 1, 1⟩, ⟨0, 0, 0⟩, ⟨2, 3, 4⟩, 1, 0⟩ none)
      (initManager ⟨⟨1, 1, 1⟩, ⟨0, 0, 0⟩, ⟨2, 3, 4⟩, 1, 0⟩ none) [] rfl,
   rotation_y_excluded.2.2.2 (snapshotOf ⟨⟨1, 1, 1⟩, ⟨0, 0, 0⟩, ⟨2, 3, 4⟩, 1, 0⟩)
      ⟨none, none, some ⟨some 7, some 9, some 8⟩, none, none⟩⟩

/-- C7: after `stop()`, every subsequent sequence of `update()` ticks
leaves the manager — the shared world included — exactly as `stop()` left
it, and fires no completion callback; `stop()` itself freezes the world at
its current value. -/
theorem stop_is_frozen :
    (∀ s : MState, (stopM s).world = s.world) ∧
    (∀ (s : MState) (dts : List ℚ),
        runUpdates dts (stopM s) = Except.ok (stopM s, [])) := by
  refine ⟨fun s => rfl, fun s dts => ?_⟩
  induction dts with
  | nil => rfl
  | cons dt rest ih =>
    have h1 : updateM dt (stopM s) = Except.ok (stopM s, []) := rfl
    simp [runUpdates, h1, ih]

/-- C9 counterexample: a step whose `target` property bag is missing
entirely IS a hard failure — `playNext` reads `params.target.scale` with
no guard, which throws a `TypeError` the moment the step starts playing
(here immediately, since the queue was empty when it was added). -/
theorem missing_target_bag_throws :
    addM ⟨none, some 1000, some 0, some "Linear.None", none, none⟩
        (initManager ⟨⟨1, 1, 1⟩, ⟨0, 0, 0⟩, ⟨0, 0, 0⟩, 1, 0⟩ none) =
      Except.error "TypeError: cannot read properties of undefined (reading scale)" := rfl

/-- C9 amended: a step whose `target` bag is present but is missing any of
its sub-objects (scale / position / rotation / imageScale / rotationSpeed)
is tolerated: each absent group is treated as "no change requested" and
playback proceeds normally to completion; in particular a step whose
`target` is the empty bag leaves the world exactly unchanged.  (A step
with no `target` bag at all throws instead — see the counterexample.) -/
theorem absent_subobjects_are_no_change (w : World) (rm : Option RespCfg)
    (delta : TargetDelta) (dur dly : ℚ) (ename : String) (ocid : Option ℕ)
    (e : ℚ → ℚ) (dt : ℚ)
    (hE : getEasingFunction ename = some e) (hdur : 0 ≤ dur) (hdly : 0 ≤ dly)
    (hdt : dly + dur ≤ dt) :
    ∃ s1 s2 : MState,
      addM ⟨some delta, some dur, some dly, some ename, none, ocid⟩ (initManager w rm) =
        Except.ok s1 ∧
      updateM dt s1 = Except.ok (s2, ocid.toList) ∧
      (delta = ⟨none, none, none, none, none⟩ → s2.world = w) := by
  obtain ⟨s1, s2, h1, h2, h3⟩ :=
    play_fresh_step w rm delta dur dly ename ocid e dt hE hdur hdly hdt
  refine ⟨s1, s2, h1, h2, fun hd => ?_⟩
  rw [h3, hd]
  rfl

/-- C9 witness: the empty-`target`-bag step (all sub-objects absent) plays
to completion and leaves the world unchanged. -/
theorem absent_subobjects_are_no_change_witness :
    ∃ s1 s2 : MState,
      addM ⟨some ⟨none, none, none, none, none⟩, some 100, some 0,
            some "Quadratic.InOut", none, some 7⟩
          (initManager ⟨⟨1, 1, 1⟩, ⟨0, 0, 0⟩, ⟨2, 3, 4⟩, 1, 0⟩ none) =
        Except.ok s1 ∧
      updateM 100 s1 = Except.ok (s2, (some 7 : Option ℕ).toList) ∧
      ((⟨none, none, none, none, none⟩ : TargetDelta) = ⟨none, none, none, none, none⟩ →
        s2.world = ⟨⟨1, 1, 1⟩, ⟨0, 0, 0⟩, ⟨2, 3, 4⟩, 1, 0⟩) :=
  absent_subobjects_are_no_change ⟨⟨1, 1, 1⟩, ⟨0, 0, 0⟩, ⟨2, 3, 4⟩, 1, 0⟩ none
    ⟨none, none, none, none, none⟩ 100 0 "Quadratic.InOut" (some 7)
    (fun k => if 2 * k < 1 then 0.5 * (2 * k) * (2 * k)
              else -0.5 * ((2 * k - 1) * (2 * k - 1 - 2) - 1))
    100 rfl (by norm_num) (by norm_num) (by norm_num)

/-- C2: a step carrying a `useKeyframe` reference whose name resolves in
the keyframe timing table is queued (and hence played) with the table's
duration, delay and easing when responsive mode is enabled, overriding its
explicit timing; with responsive mode disabled the step keeps its own
explicit duration, delay and easing. -/
theorem keyframe_override (w : World) (rm : RespCfg) (kf : String) (kt : KTiming)
    (delta : TargetDelta) (dur dly : ℚ) (ename : String) (ocid : Option ℕ)
    (e1 e2 : ℚ → ℚ)
    (hkt : getKeyframeTiming rm kf = some kt)
    (hE1 : getEasingFunction kt.easing = some e1)
    (hE2 : getEasingFunction ename = some e2) :
    (∃ tw : ActiveTween,
        addM ⟨some delta, some dur, some dly, some ename, some kf, ocid⟩
            { initManager w (some rm) with isResponsiveMode := true } =
          Except.ok { initManager w (some rm) with
                        isResponsiveMode := true, current := some tw } ∧
        tw.duration = kt.duration ∧ tw.delay = kt.delay ∧ tw.easingFn = e1) ∧
    (∃ tw : ActiveTween,
        addM ⟨some delta, some dur, some dly, some ename, some kf, ocid⟩
            (initManager w (some rm)) =
          Except.ok { initManager w (some rm) with current := some tw } ∧
        tw.duration = dur ∧ tw.delay = dly ∧ tw.easingFn = e2) := by
  constructor
  · refine ⟨⟨snapshotOf w, buildTargetState (snapshotOf w) delta,
             kt.duration, kt.delay, 0, e1, ocid⟩, ?_, rfl, rfl, rfl⟩
    simp [addM, applyKeyframeTiming, playNextM, initManager, hkt, hE1]
  · refine ⟨⟨snapshotOf w, buildTargetState (snapshotOf w) delta,
             dur, dly, 0, e2, ocid⟩, ?_, rfl, rfl, rfl⟩
    simp [addM, applyKeyframeTiming, playNextM, initManager, hE2]

/-- C2 witness: the spec's own example — a step with `useKeyframe: 'phase2'`
and explicit `duration: 1` against the repository's keyframe table ends up
with duration 1800 (the phase2 entry) in responsive mode and with its own
duration 1 outside responsive mode. -/
theorem keyframe_override_witness :
    getKeyframeTiming configResponsive "phase2" =
      some ⟨1800, 0, "Quadratic.InOut"⟩ ∧
    ((∃ tw : ActiveTween,
        addM ⟨some ⟨none, none, none, none, none⟩, some 1, some 0,
              some "Linear.None", some "phase2", none⟩
            { initManager ⟨⟨1, 1, 1⟩, ⟨0, 0, 0⟩, ⟨0, 0, 0⟩, 1, 0⟩ (some configResponsive) with
                isResponsiveMode := true } =
          Except.ok { initManager ⟨⟨1, 1, 1⟩, ⟨0, 0, 0⟩, ⟨0, 0, 0⟩, 1, 0⟩
                        (some configResponsive) with
                        isResponsiveMode := true, current := some tw } ∧
        tw.duration = (1800 : ℚ) ∧ tw.delay = (0 : ℚ) ∧
        tw.easingFn = (fun k => if 2 * k < 1 then 0.5 * (2 * k) * (2 * k)
                                else -0.5 * ((2 * k - 1) * (2 * k - 1 - 2) - 1))) ∧
     (∃ tw : ActiveTween,
        addM ⟨some ⟨none, none, none, none, none⟩, some 1, some 0,
              some "Linear.None", some "phase2", none⟩
            (initManager ⟨⟨1, 1, 1⟩, ⟨0, 0, 0⟩, ⟨0, 0, 0⟩, 1, 0⟩ (some configResponsive)) =
          Except.ok { initManager ⟨⟨1, 1, 1⟩, ⟨0, 0, 0⟩, ⟨0, 0, 0⟩, 1, 0⟩
                        (some configResponsive) with current := some tw } ∧
        tw.duration = (1 : ℚ) ∧ tw.delay = (0 : ℚ) ∧ tw.easingFn = (fun k => k))) :=
  ⟨rfl,
   keyframe_override ⟨⟨1, 1, 1⟩, ⟨0, 0, 0⟩, ⟨0, 0, 0⟩, 1, 0⟩ configResponsive
     "phase2" ⟨1800, 0, "Quadratic.InOut"⟩ ⟨none, none, none, none, none⟩ 1 0
     "Linear.None" none
     (fun k => if 2 * k < 1 then 0.5 * (2 * k) * (2 * k)
               else -0.5 * ((2 * k - 1) * (2 * k - 1 - 2) - 1))
     (fun k => k) rfl rfl rfl⟩

/-- A morph evaluated at the multiplier that was in effect at creation
time reproduces the creation-time vertex, because the rescale ratio of the
stored flat coordinate is exactly 1 and the anti-z-fighting offset is the
same deterministic function at both sites. -/
lemma morphVertex_at_creation (env : MathEnv) (radius lat lng alignX alignY : ℚ)
    (pw ph : ℚ) (url : List ℕ) (x y : ℚ) (hpw : pw ≠ 0) (hph : ph ≠ 0) :
    morphVertex env radius lat lng alignX alignY pw ph pw ph url x y =
      projectVertex env radius lat lng alignX alignY pw ph url x y := by
  simp only [morphVertex, projectVertex]
  rw [div_self hpw, div_self hph, mul_one, mul_one]
  rfl

/-- C3: morph round-trip idempotence — for a record created by
`projectImage` under multiplier `m0`, morphing to any multiplier `m` and
then morphing again with `m0` restores the record exactly (vertex
positions included), because every morph recomputes positions from the
stored original flat local coordinates, never from the previous morph's
output.  Over exact rational arithmetic the round trip is exact, which in
particular implies the spec's "within floating-point tolerance". -/
theorem morph_round_trip (env : MathEnv) (radius : ℚ) (url : List ℕ)
    (targetSize lat lng alignX alignY aspect m0 m : ℚ)
    (hts : targetSize ≠ 0) (hasp : aspect ≠ 0) (hm0 : 0 < m0) :
    updateGeometryForSize env radius
        (updateGeometryForSize env radius
          (projectImageRecord env radius url targetSize lat lng alignX alignY aspect m0) m)
        m0 =
      projectImageRecord env radius url targetSize lat lng alignX alignY aspect m0 := by
  have hph : targetSize * m0 ≠ 0 := mul_ne_zero hts (ne_of_gt hm0)
  have hpw : targetSize * m0 * aspect ≠ 0 := mul_ne_zero hph hasp
  simp only [updateGeometryForSize, projectImageRecord]
  congr 1
  refine List.map_congr_left ?_
  intro v _
  exact morphVertex_at_creation env radius lat lng alignX alignY _ _ url v.1 v.2 hpw hph

/-- C3 witness: the round trip 1 → 1/2 → 1 at a concrete record. -/
theorem morph_round_trip_witness :
    updateGeometryForSize envW 5
        (updateGeometryForSize envW 5
          (projectImageRecord envW 5 [104] 1 10 20 0 0 2 1) (1 / 2)) 1 =
      projectImageRecord envW 5 [104] 1 10 20 0 0 2 1 :=
  morph_round_trip envW 5 [104] 1 10 20 0 0 2 1 (1 / 2)
    (by norm_num) (by norm_num) (by norm_num)

/-! ### Distribution lemmas (C8) -/

/-- One step of the first distribution pass with all the numeric
quantities (band index, capacity, images assigned) supplied as concrete
values. -/
lemma firstPass_step (env : MathEnv) (sp : ℚ) (n cp : ℕ) (rest : List ℕ) (rem : ℕ)
    (ipp : ℕ → ℕ) (par cap ft : ℕ)
    (hrem : rem ≠ 0)
    (hpar : parallelOrder n (cp % n) = par)
    (hcap : bandCapacity 15 (env.cosQ ((-90 + sp * ((par : ℚ) + 1)) * (env.piQ / 180))) = cap)
    (hft : min cap ((rem + (n - cp) - 1) / (n - cp)) = ft) :
    firstPass env sp n (cp :: rest) rem ipp =
      firstPass env sp n rest (rem - ft) (fun j => if j = par then ft else ipp j) := by
  simp only [firstPass]
  rw [if_neg hrem, hpar, hcap, hft]

/-- For 29 images the planner uses 6 latitude bands
(`min(ceil(sqrt(29)), 7)`). -/
lemma numParallels_29 : min (ceilSqrt 29) 7 = 6 := by
  have hle : 5 ≤ Nat.sqrt 29 := Nat.le_sqrt.mpr (by norm_num)
  have hlt : Nat.sqrt 29 < 6 := Nat.sqrt_lt.mpr (by norm_num)
  have hs29 : Nat.sqrt 29 = 5 := by omega
  rw [ceilSqrt, hs29]
  norm_num

/-- The two distribution passes for 29 images, under the integer band
capacities the IEEE cosine produces at the six band latitudes
(`⌊15·cos⌋` = 6, 11, 14, 14, 11, 6 for latitudes ±450/7°, ±270/7°,
±90/7°): bands 3, 2, 4, 1, 5 take 5 images each in that order, band 0
takes the remaining 4, no image is left over, and the top-up pass never
runs. -/
lemma distributionCounts_29 (env : MathEnv)
    (hcaps : ∀ p : ℕ, p < 6 →
      bandCapacity 15 (env.cosQ ((-90 + 180 / 7 * ((p : ℚ) + 1)) * (env.piQ / 180))) =
        [6, 11, 14, 14, 11, 6].getD p 0) :
    distributionCounts env 29 =
      (fun j => if j = 0 then 4 else if j = 5 then 5 else if j = 1 then 5
                else if j = 4 then 5 else if j = 2 then 5 else if j = 3 then 5 else 0, 0) := by
  have e1 : firstPass env (180 / 7) 6 [0, 1, 2, 3, 4, 5] 29 (fun _ => 0) =
      firstPass env (180 / 7) 6 [1, 2, 3, 4, 5] 24 (fun j => if j = 3 then 5 else 0) :=
    firstPass_step env (180 / 7) 6 0 [1, 2, 3, 4, 5] 29 (fun _ => 0) 3 14 5
      (by norm_num) (by decide) (hcaps 3 (by norm_num)) (by decide)
  have e2 : firstPass env (180 / 7) 6 [1, 2, 3, 4, 5] 24 (fun j => if j = 3 then 5 else 0) =
      firstPass env (180 / 7) 6 [2, 3, 4, 5] 19
        (fun j => if j = 2 then 5 else if j = 3 then 5 else 0) :=
    firstPass_step env (180 / 7) 6 1 [2, 3, 4, 5] 24 (fun j => if j = 3 then 5 else 0) 2 14 5
      (by norm_num) (by decide) (hcaps 2 (by norm_num)) (by decide)
  have e3 : firstPass env (180 / 7) 6 [2, 3, 4, 5] 19
        (fun j => if j = 2 then 5 else if j = 3 then 5 else 0) =
      firstPass env (180 / 7) 6 [3, 4, 5] 14
        (fun j => if j = 4 then 5 else if j = 2 then 5 else if j = 3 then 5 else 0) :=
    firstPass_step env (180 / 7) 6 2 [3, 4, 5] 19
      (fun j => if j = 2 then 5 else if j = 3 then 5 else 0) 4 11 5
      (by norm_num) (by decide) (hcaps 4 (by norm_num)) (by decide)
  have e4 : firstPass env (180 / 7) 6 [3, 4, 5] 14
        (fun j => if j = 4 then 5 else if j = 2 then 5 else if j = 3 then 5 else 0) =
      firstPass env (180 / 7) 6 [4, 5] 9
        (fun j => if j = 1 then 5 else if j = 4 then 5 else if j = 2 then 5
                  else if j = 3 then 5 else 0) :=
    firstPass_step env (180 / 7) 6 3 [4, 5] 14
      (fun j => if j = 4 then 5 else if j = 2 then 5 else if j = 3 then 5 else 0) 1 11 5
      (by norm_num) (by decide) (hcaps 1 (by norm_num)) (by decide)
  have e5 : firstPass env (180 / 7) 6 [4, 5] 9
        (fun j => if j = 1 then 5 else if j = 4 then 5 else if j = 2 then 5
                  else if j = 3 then 5 else 0) =
      firstPass env (180 / 7) 6 [5] 4
        (fun j => if j = 5 then 5 else if j = 1 then 5 else if j = 4 then 5
                  else if j = 2 then 5 else if j = 3 then 5 else 0) :=
    firstPass_step env (180 / 7) 6 4 [5] 9
      (fun j => if j = 1 then 5 else if j = 4 then 5 else if j = 2 then 5
                else if j = 3 then 5 else 0) 5 6 5
      (by norm_num) (by decide) (hcaps 5 (by norm_num)) (by decide)
  have e6 : firstPass env (180 / 7) 6 [5] 4
        (fun j => if j = 5 then 5 else if j = 1 then 5 else if j = 4 then 5
                  else if j = 2 then 5 else if j = 3 then 5 else 0) =
      firstPass env (180 / 7) 6 [] 0
        (fun j => if j = 0 then 4 else if j = 5 then 5 else if j = 1 then 5
                  else if j = 4 then 5 else if j = 2 then 5 else if j = 3 then 5 else 0) :=
    firstPass_step env (180 / 7) 6 5 [] 4
      (fun j => if j = 5 then 5 else if j = 1 then 5 else if j = 4 then 5
                else if j = 2 then 5 else if j = 3 then 5 else 0) 0 6 4
      (by norm_num) (by decide) (hcaps 0 (by norm_num)) (by decide)
  unfold distributionCounts
  simp only [numParallels_29]
  have hsp : (180 : ℚ) / (((6 : ℕ) : ℚ) + 1) = 180 / 7 := by norm_num
  rw [hsp]
  rw [show List.range 6 = [0, 1, 2, 3, 4, 5] from rfl]
  rw [e1, e2, e3, e4, e5, e6]
  simp [firstPass]

/-- The inner placement loop consumes one URL per iteration until either
its index list or the URL list runs out: the final index advances by
`min is.length (remaining URLs)` and exactly the URLs
`urls[idx], urls[idx+1], …` are appended, in order. -/
lemma placeInner_spec {α : Type} (piQ size lat st : ℚ) (urls : List α) :
    ∀ (is : List ℕ) (idx : ℕ) (acc : List (ImageConfig α)),
      (placeInner piQ size lat st urls is idx acc).1 =
          idx + min is.length (urls.length - idx) ∧
      ((placeInner piQ size lat st urls is idx acc).2.map (fun c => c.imageUrl) =
          acc.map (fun c => c.imageUrl) ++ (urls.drop idx).take is.length) := by
  intro is
  induction is with
  | nil => intro idx acc; simp [placeInner]
  | cons i rest ih =>
    intro idx acc
    have hlc : (i :: rest).length = rest.length + 1 := rfl
    rcases hg : urls.get? idx with _ | u
    · have hlen : urls.length ≤ idx := List.get?_eq_none.mp hg
      have hdrop : urls.drop idx = [] := List.drop_eq_nil_of_le hlen
      constructor
      · show (placeInner piQ size lat st urls (i :: rest) idx acc).1 = _
        simp only [placeInner, hg]
        omega
      · show (placeInner piQ size lat st urls (i :: rest) idx acc).2.map _ = _
        simp only [placeInner, hg, hdrop]
        simp
    · have hidx : idx < urls.length := by
        by_contra hc
        push_neg at hc
        rw [List.get?_eq_none.mpr hc] at hg
        cases hg
      have hget : urls[idx] = u := by
        rw [List.get?_eq_getElem?] at hg
        exact (List.getElem?_eq_some.mp hg).2
      obtain ⟨h1, h2⟩ := ih (idx + 1)
        (acc ++ [{ imageUrl := u, targetSize := size, lat := lat,
                   lng := (i : ℚ) * st, alignX := 0, alignY := 0,
                   rotX := 0, rotY := 0, rotZ := piQ }])
      constructor
      · show (placeInner piQ size lat st urls (i :: rest) idx acc).1 = _
        simp only [placeInner, hg]
        rw [h1]
        omega
      · show (placeInner piQ size lat st urls (i :: rest) idx acc).2.map _ = _
        simp only [placeInner, hg]
        rw [h2, List.drop_eq_getElem_cons hidx, hget, hlc]
        simp [List.take_succ_cons]

/-- Index component of `placeInner_spec`. -/
lemma placeInner_idx {α : Type} (piQ size lat st : ℚ) (urls : List α)
    (is : List ℕ) (idx : ℕ) (acc : List (ImageConfig α)) :
    (placeInner piQ size lat st urls is idx acc).1 =
      idx + min is.length (urls.length - idx) :=
  (placeInner_spec piQ size lat st urls is idx acc).1

/-- URL component of `placeInner_spec`. -/
lemma placeInner_map {α : Type} (piQ size lat st : ℚ) (urls : List α)
    (is : List ℕ) (idx : ℕ) (acc : List (ImageConfig α)) :
    (placeInner piQ size lat st urls is idx acc).2.map (fun c => c.imageUrl) =
      acc.map (fun c => c.imageUrl) ++ (urls.drop idx).take is.length :=
  (placeInner_spec piQ size lat st urls is idx acc).2

/-- Two truncating takes over a list concatenate into one. -/
lemma take_min_append {α : Type} (l : List α) (a b : ℕ) :
    l.take a ++ (l.drop (min a l.length)).take b = l.take (a + b) := by
  by_cases h : a ≤ l.length
  · rw [min_eq_left h, List.take_add]
  · push_neg at h
    rw [min_eq_right (le_of_lt h), List.drop_length]
    simp [List.take_of_length_le (le_of_lt h),
          List.take_of_length_le (le_trans (le_of_lt h) (Nat.le_add_right a b))]

/-- Unfolding one non-empty band of the outer placement loop. -/
lemma placeOuter_cons_pos {α : Type} (env : MathEnv) (sp size : ℚ) (urls : List α)
    (ipp : ℕ → ℕ) (p : ℕ) (rest : List ℕ) (idx : ℕ) (acc : List (ImageConfig α))
    (hz : ¬ ipp p = 0) :
    placeOuter env sp size urls ipp (p :: rest) idx acc =
      placeOuter env sp size urls ipp rest
        (placeInner env.piQ size
          (-90 + sp * ((p : ℚ) + 1) + env.sinQ ((p : ℚ) * 13.37) * sp * 0.8)
          (360 / (ipp p : ℚ) + env.cosQ ((p : ℚ) * 7.853) * (360 / (ipp p : ℚ)) * 0.05)
          urls (List.range (ipp p)) idx acc).1
        (placeInner env.piQ size
          (-90 + sp * ((p : ℚ) + 1) + env.sinQ ((p : ℚ) * 13.37) * sp * 0.8)
          (360 / (ipp p : ℚ) + env.cosQ ((p : ℚ) * 7.853) * (360 / (ipp p : ℚ)) * 0.05)
          urls (List.range (ipp p)) idx acc).2 := by
  simp only [placeOuter]
  rw [if_neg hz]

/-- The outer placement loop consumes the URL list contiguously: across the
bands of `ps`, the index advances by `min (Σ counts) (remaining URLs)` and
exactly that segment of URLs is appended in order. -/
lemma placeOuter_spec {α : Type} (env : MathEnv) (sp size : ℚ) (urls : List α)
    (ipp : ℕ → ℕ) :
    ∀ (ps : List ℕ) (idx : ℕ) (acc : List (ImageConfig α)),
      (placeOuter env sp size urls ipp ps idx acc).1 =
          idx + min ((ps.map ipp).sum) (urls.length - idx) ∧
      ((placeOuter env sp size urls ipp ps idx acc).2.map (fun c => c.imageUrl) =
          acc.map (fun c => c.imageUrl) ++ (urls.drop idx).take ((ps.map ipp).sum)) := by
  intro ps
  induction ps with
  | nil => intro idx acc; simp [placeOuter]
  | cons p rest ih =>
    intro idx acc
    by_cases hz : ipp p = 0
    · constructor
      · show (placeOuter env sp size urls ipp (p :: rest) idx acc).1 = _
        simp only [placeOuter]
        rw [if_pos hz, (ih idx acc).1]
        simp [hz]
      · show (placeOuter env sp size urls ipp (p :: rest) idx acc).2.map _ = _
        simp only [placeOuter]
        rw [if_pos hz, (ih idx acc).2]
        simp [hz]
    · have hstep := placeOuter_cons_pos env sp size urls ipp p rest idx acc hz
      constructor
      · rw [hstep, (ih _ _).1, placeInner_idx, List.length_range,
            List.map_cons, List.sum_cons]
        omega
      · rw [hstep, (ih _ _).2, placeInner_map, placeInner_idx, List.length_range,
            List.map_cons, List.sum_cons]
        rw [← List.drop_drop, ← List.length_drop idx urls, List.append_assoc,
            take_min_append]

/-- URL component of `placeOuter_spec`. -/
lemma placeOuter_map {α : Type} (env : MathEnv) (sp size : ℚ) (urls : List α)
    (ipp : ℕ → ℕ) (ps : List ℕ) (idx : ℕ) (acc : List (ImageConfig α)) :
    (placeOuter env sp size urls ipp ps idx acc).2.map (fun c => c.imageUrl) =
      acc.map (fun c => c.imageUrl) ++ (urls.drop idx).take ((ps.map ipp).sum) :=
  (placeOuter_spec env sp size urls ipp ps idx acc).2

/-- C8 (amended): for 29 image URLs, under the integer band capacities the
IEEE cosine yields at the six band latitudes (⌊15·cos⌋ = 6, 11, 14, 14,
11, 6), `generateSphericalDistribution` places every URL exactly once (the
output configs list the input URLs in order, so there are exactly 29
configs, no duplicates and no omissions), no image is left unplaced, and
the band counts are 4, 5, 5, 5, 5, 5 — the polar band 0 receives strictly
fewer images than every equator-adjacent band, but the opposite polar band
5 receives the same 5 as the equator bands, so bands nearer a pole receive
at most as many images (not always strictly fewer); the top-up pass does
not run. -/
theorem spherical_distribution_29 (env : MathEnv) {α : Type} (urls : List α)
    (hlen : urls.length = 29)
    (hcaps : ∀ p : ℕ, p < 6 →
      bandCapacity 15 (env.cosQ ((-90 + 180 / 7 * ((p : ℚ) + 1)) * (env.piQ / 180))) =
        [6, 11, 14, 14, 11, 6].getD p 0) :
    (generateSphericalDistribution env urls none).map (fun c => c.imageUrl) = urls ∧
    (distributionCounts env 29).2 = 0 ∧
    (∀ p : ℕ, (distributionCounts env 29).1 p = [4, 5, 5, 5, 5, 5].getD p 0) := by
  have hkey := distributionCounts_29 env hcaps
  refine ⟨?_, by rw [hkey], ?_⟩
  · unfold generateSphericalDistribution
    rw [hlen, hkey]
    simp only [numParallels_29]
    rw [show List.range 6 = [0, 1, 2, 3, 4, 5] from rfl]
    rw [placeOuter_map]
    rw [show (([0, 1, 2, 3, 4, 5].map fun j =>
        if j = 0 then 4 else if j = 5 then 5 else if j = 1 then 5
        else if j = 4 then 5 else if j = 2 then 5 else if j = 3 then 5 else 0).sum) = 29
      from rfl]
    simp [List.take_of_length_le hlen.le]
  · intro p
    rw [hkey]
    rcases p with _ | _ | _ | _ | _ | _ | n
    · rfl
    · rfl
    · rfl
    · rfl
    · rfl
    · rfl
    · rw [List.getD_eq_default _ _ (by simp)]
      dsimp only
      split_ifs <;> first | rfl | contradiction | omega

/-- A concrete rational stand-in for the IEEE cosine of the band latitudes,
agreeing with the real cosine to four decimal places at the six latitudes
the 29-image distribution evaluates it at (cos 12.857° ≈ 0.9749,
cos 38.571° ≈ 0.7818, cos 64.286° ≈ 0.4339); together with `piQ := 180` the
code's argument `latitude * (piQ / 180)` is the latitude in degrees. -/
def cosDegApprox (x : ℚ) : ℚ :=
  if |x| ≤ 15 then 9749 / 10000
  else if |x| ≤ 40 then 7818 / 10000
  else if |x| ≤ 70 then 4339 / 10000
  else 0

/-- The concrete math environment for distribution witnesses and the C8
counterexample. -/
def envCos : MathEnv :=
  { sinQ := fun _ => 0, cosQ := cosDegApprox, lenQ := fun _ _ _ => 1, piQ := 180 }

/-- The environment `envCos` produces exactly the first-pass band capacities of the IEEE
cosine: ⌊15·cos⌋ = 6, 11, 14, 14, 11, 6 at the six band latitudes. -/
lemma envCos_caps : ∀ p : ℕ, p < 6 →
    bandCapacity 15 (envCos.cosQ ((-90 + 180 / 7 * ((p : ℚ) + 1)) * (envCos.piQ / 180))) =
      [6, 11, 14, 14, 11, 6].getD p 0 := by
  intro p hp
  interval_cases p <;>
    norm_num [envCos, cosDegApprox, bandCapacity, abs] <;> rfl

/-- C8 counterexample: with the band capacities of the real cosine (via
`envCos`), it is NOT true that every band nearer a pole receives strictly
fewer images than every band nearer the equator for N = 29: band 5
(latitude 450/7 ≈ 64.3°, nearer the pole) receives 5 images, the same as
band 3 (latitude 90/7 ≈ 12.9°, adjacent to the equator). -/
theorem spherical_distribution_strict_counterexample :
    ¬ (∀ p q : ℕ, p < 6 → q < 6 →
        |(-90 + 180 / 7 * ((p : ℚ) + 1))| > |(-90 + 180 / 7 * ((q : ℚ) + 1))| →
        (distributionCounts envCos 29).1 p < (distributionCounts envCos 29).1 q) := by
  intro h
  have hkey := distributionCounts_29 envCos envCos_caps
  have h53 := h 5 3 (by norm_num) (by norm_num) ?_
  · rw [hkey] at h53
    simp at h53
  · rw [show (-90 + 180 / 7 * (((5 : ℕ) : ℚ) + 1)) = 450 / 7 by norm_num,
        show (-90 + 180 / 7 * (((3 : ℕ) : ℚ) + 1)) = 90 / 7 by norm_num,
        abs_of_nonneg (by norm_num : (0 : ℚ) ≤ 450 / 7),
        abs_of_nonneg (by norm_num : (0 : ℚ) ≤ 90 / 7)]
    norm_num

/-- C8 witness: the amended theorem applied to the URL list `0, …, 28`
under `envCos`. -/
theorem spherical_distribution_29_witness :
    (generateSphericalDistribution envCos (List.range 29) none).map
        (fun c => c.imageUrl) = List.range 29 ∧
    (distributionCounts envCos 29).2 = 0 ∧
    (∀ p : ℕ, (distributionCounts envCos 29).1 p = [4, 5, 5, 5, 5, 5].getD p 0) :=
  spherical_distribution_29 envCos (List.range 29) (by simp) envCos_caps

/-- C7 witness: the frozen-after-stop theorem applied to a concrete
manager and two subsequent update ticks. -/
theorem stop_is_frozen_witness :
    (stopM (initManager ⟨⟨1, 1, 1⟩, ⟨0, 0, 0⟩, ⟨2, 3, 4⟩, 1, 0⟩ none)).world =
        ⟨⟨1, 1, 1⟩, ⟨0, 0, 0⟩, ⟨2, 3, 4⟩, 1, 0⟩ ∧
    runUpdates [5, 10] (stopM (initManager ⟨⟨1, 1, 1⟩, ⟨0, 0, 0⟩, ⟨2, 3, 4⟩, 1, 0⟩ none)) =
      Except.ok (stopM (initManager ⟨⟨1, 1, 1⟩, ⟨0, 0, 0⟩, ⟨2, 3, 4⟩, 1, 0⟩ none), []) :=
  ⟨stop_is_frozen.1 (initManager ⟨⟨1, 1, 1⟩, ⟨0, 0, 0⟩, ⟨2, 3, 4⟩, 1, 0⟩ none),
   stop_is_frozen.2 (initManager ⟨⟨1, 1, 1⟩, ⟨0, 0, 0⟩, ⟨2, 3, 4⟩, 1, 0⟩ none) [5, 10]⟩
